import Mathlib

/-!
Shallow embedding of the attention-tracking and autonomous-teaching logic of
the Tutor-ai repository.

Part 1 models the emotion-recognition session state of `src/app.py`
(`start_emotion_tracking`, `analyze_emotion`, `end_emotion_tracking`): the
per-student temporal-smoothing state machine, the session map keyed by
student name, and the end-of-session summary computation.

Part 2 models the lecture cache and the curriculum-teaching loop of
`src/teaching/autonomous_teacher.py` (`_teach_unit`,
`_generate_teacher_lecture`, `teach_entire_curriculum_with_highlighting`).

Timestamps are abstracted as naturals; confidences are exact rationals;
Python dicts keyed by strings become insertion-ordered association lists
(Python dicts preserve insertion order, and the code iterates them).
-/

/-- One analyzed frame for one student, as produced by the emotion detector:
the raw attentive verdict, the emotion confidence, and the optional
distraction reason the detector attached to the result. -/
structure FrameObservation where
  is_attentive : Bool
  confidence : ℚ
  distraction_reason : Option String
deriving DecidableEq, Repr

/-- Per-student entry of `lecture_sessions` in `src/app.py`: frame counters,
the rolling history window, rolling confidence scores, the tally of
distraction reasons, the current smoothed state and the last-seen time. -/
structure StudentState where
  total_frames : Nat
  attentive_frames : Nat
  history : List Bool
  confidence_scores : List ℚ
  distraction_reasons : List (String × Nat)
  current_state : Bool
  last_seen : Nat
deriving DecidableEq, Repr

/-- `HISTORY_LENGTH = 3`: number of frames kept in the smoothing window. -/
def HISTORY_LENGTH : Nat := 3

/-- `CONFIDENCE_THRESHOLD = 0.6`: minimum emotion confidence for a frame to
enter the smoothing window. -/
def CONFIDENCE_THRESHOLD : ℚ := 6 / 10

/-- `CONSECUTIVE_FRAMES_REQUIRED = 2`: attentive frames required out of
`HISTORY_LENGTH` for the smoothed state to be attentive. -/
def CONSECUTIVE_FRAMES_REQUIRED : Nat := 2

/-- Fresh per-student state created on first observation of a student name:
all counters zero, empty window, `current_state` starts optimistic (true). -/
def initState (now : Nat) : StudentState :=
  { total_frames := 0
    attentive_frames := 0
    history := []
    confidence_scores := []
    distraction_reasons := []
    current_state := true
    last_seen := now }

/-- `session['distraction_reasons'][reason] = .get(reason, 0) + 1` on a dict:
increment the count of `r` in place, or append `(r, 1)` if absent. -/
def bump : List (String × Nat) → String → List (String × Nat)
  | [], r => [(r, 1)]
  | (k, c) :: rest, r => if k = r then (k, c + 1) :: rest else (k, c) :: bump rest r

/-- `sum(history)` on a list of booleans. -/
def countTrue (l : List Bool) : Nat := l.countP id

/-- One `analyze_emotion` update of a single student state (the body of the
handler after `session = lecture_sessions[student_name]`): confidence
gating, window append with pop-front beyond `HISTORY_LENGTH`, temporal
smoothing (majority vote once the window is full, raw value before that),
distraction tallying, then the unconditional frame accounting. -/
def observe (s : StudentState) (obs : FrameObservation) (now : Nat) : StudentState :=
  let s1 :=
    if CONFIDENCE_THRESHOLD ≤ obs.confidence then
      let h1 := s.history ++ [obs.is_attentive]
      let c1 := s.confidence_scores ++ [obs.confidence]
      let h2 := if HISTORY_LENGTH < h1.length then h1.tail else h1
      let c2 := if HISTORY_LENGTH < h1.length then c1.tail else c1
      let cur :=
        if HISTORY_LENGTH ≤ h2.length then
          decide (CONSECUTIVE_FRAMES_REQUIRED ≤ countTrue h2)
        else obs.is_attentive
      let dr :=
        match obs.distraction_reason with
        | some r => if obs.is_attentive then s.distraction_reasons else bump s.distraction_reasons r
        | none => s.distraction_reasons
      { s with
        history := h2
        confidence_scores := c2
        current_state := cur
        distraction_reasons := dr }
    else s
  { s1 with
    total_frames := s1.total_frames + 1
    attentive_frames := s1.attentive_frames + (if s1.current_state then 1 else 0)
    last_seen := now }

/-- First-match lookup in the insertion-ordered session map. -/
def lookupStudent : List (String × StudentState) → String → Option StudentState
  | [], _ => none
  | (k, v) :: rest, name => if k = name then some v else lookupStudent rest name

/-- `if student_name not in lecture_sessions: lecture_sessions[student_name] = ...`:
append a fresh state for `name` when absent (dict insertion order). -/
def getOrInit (m : List (String × StudentState)) (name : String) (now : Nat) :
    List (String × StudentState) :=
  if (lookupStudent m name).isSome then m else m ++ [(name, initState now)]

/-- In-place update of the entry with key `name` (dict item assignment:
keys are unique, so the first match is the entry). -/
def updateAt : List (String × StudentState) → String →
    (StudentState → StudentState) → List (String × StudentState)
  | [], _, _ => []
  | (k, v) :: rest, name, f =>
      if k = name then (k, f v) :: rest else (k, v) :: updateAt rest name f

/-- Effect of one `analyze_emotion` call on the whole `lecture_sessions`
map: initialize the student lazily, then update that entry. -/
def observeSession (m : List (String × StudentState)) (name : String)
    (obs : FrameObservation) (now : Nat) : List (String × StudentState) :=
  updateAt (getOrInit m name now) name (fun s => observe s obs now)

/-- A whole session: the session map after any sequence of
`analyze_emotion` calls, each giving a student name, an observation and a
timestamp. -/
def runSession (m : List (String × StudentState)) :
    List (String × FrameObservation × Nat) → List (String × StudentState)
  | [] => m
  | e :: rest => runSession (observeSession m e.1 e.2.1 e.2.2) rest

/-- Python `round` to the nearest integer with ties to even. -/
def pyRound (q : ℚ) : ℤ :=
  if q - ⌊q⌋ < 1 / 2 then ⌊q⌋
  else if 1 / 2 < q - ⌊q⌋ then ⌊q⌋ + 1
  else if ⌊q⌋ % 2 = 0 then ⌊q⌋ else ⌊q⌋ + 1

/-- Python `round(q, 1)`: one decimal place, ties to even. -/
def pyRound1 (q : ℚ) : ℚ := (pyRound (q * 10) : ℚ) / 10

/-- `avg_confidence = sum(scores) / len(scores) if scores else 0`. -/
def avgConfidence (s : StudentState) : ℚ :=
  if s.confidence_scores ≠ [] then s.confidence_scores.sum / s.confidence_scores.length else 0

/-- `max(tally.items(), key=lambda x: x[1])[0] if tally else 'None'`:
Python `max` keeps the first maximal item in iteration order. -/
def topDistraction : List (String × Nat) → String
  | [] => "None"
  | p :: rest => (rest.foldl (fun best q => if best.2 < q.2 then q else best) p).1

/-- One row of the end-of-lecture summary built by `end_emotion_tracking`. -/
structure SummaryEntry where
  name : String
  total_frames : Nat
  attentive_frames : Nat
  attentive_percentage : ℤ
  total_time_seconds : Nat
  avg_confidence : ℚ
  top_distraction : String
  distraction_count : Nat
deriving DecidableEq, Repr

/-- The summary row for one student, exactly as `end_emotion_tracking`
computes it: guarded percentage, 2 seconds per frame, scaled rounded
average confidence, argmax distraction reason, total distraction count. -/
def summaryEntry (name : String) (s : StudentState) : SummaryEntry :=
  { name := name
    total_frames := s.total_frames
    attentive_frames := s.attentive_frames
    attentive_percentage :=
      if 0 < s.total_frames then pyRound ((s.attentive_frames : ℚ) / s.total_frames * 100) else 0
    total_time_seconds := s.total_frames * 2
    avg_confidence := pyRound1 (avgConfidence s * 100)
    top_distraction := topDistraction s.distraction_reasons
    distraction_count := (s.distraction_reasons.map Prod.snd).sum }

/-- `end_emotion_tracking`: the summary over all tracked students, together
with the session map it leaves behind (the handler deliberately does not
clear `lecture_sessions`; the comment defers clearing to `start_lecture`). -/
def endSession (m : List (String × StudentState)) :
    List SummaryEntry × List (String × StudentState) :=
  (m.map (fun p => summaryEntry p.1 p.2), m)

/-- `start_emotion_tracking`: `lecture_sessions = {}` — the session map is
reset unconditionally, whatever it held before. -/
def startSession (_m : List (String × StudentState)) : List (String × StudentState) := []

/-!
Part 2: the lecture cache and curriculum loop of
`src/teaching/autonomous_teacher.py`. The per-document cache directory
(`./data/lectures/<pdf_hash>/lesson_<n>.txt`) becomes a map from unit
number to optional text; the document fingerprint is fixed by choosing the
map. The external generator (`generate_with_ollama` behind the prompt
built by `_generate_teacher_lecture`) becomes a function to `Except`, and
the RAG retrieval becomes a function from topic to context text, with the
empty string standing for "no content found".
-/

/-- One curriculum unit (the dict's `title` field is what the loop uses). -/
structure TeachUnit where
  title : String
deriving DecidableEq, Repr

/-- The data `_generate_teacher_lecture` feeds into the generation prompt:
topic, retrieved context, unit number and total units. -/
structure GenArgs where
  topic : String
  context : String
  unit_num : Nat
  total_units : Nat
deriving DecidableEq, Repr

/-- External dependencies of the teacher: RAG retrieval and the Ollama
generator, which may fail (raise) on any given prompt. -/
structure TeacherEnv where
  retrieve : String → String
  gen : GenArgs → Except String String

/-- `_generate_timeout_message`: the friendly fallback lecture returned when
generation fails, so teaching continues instead of crashing. -/
def timeoutMessage (topic : String) (unit_num : Nat) (_total_units : Nat) : String :=
  "Lesson " ++ toString unit_num ++
  "\n\nHello students! I apologize, but I\x27m having some difficulty preparing \nthis particular lesson on \"" ++
  topic ++
  "\" right now. The content might be \nquite detailed, and I need a bit more time to organize it properly.\n\nRather than keep you waiting, let\x27s move forward to the next topic, \nand we can come back to this one later if needed.\n\nDon\x27t worry - this sometimes happens when we\x27re dealing with very \ncomplex or lengthy material. The important thing is that we keep \nlearning and making progress together!\n\nLet\x27s continue with our next lesson."

/-- `_generate_no_content_message`: returned when retrieval finds nothing
for the topic. -/
def noContentMessage (topic : String) (unit_num : Nat) (_total_units : Nat) : String :=
  "Lesson " ++ toString unit_num ++
  "\n\nI apologize, but I could not find sufficient content in the textbook \nabout \"" ++
  topic ++
  "\" to teach this lesson properly.\n\nThis might mean:\n- The topic is not covered in detail in this textbook\n- The topic might be referenced elsewhere with different terminology\n\nLet\x27s move on to the next lesson."

/-- `_generate_teacher_lecture`: call the generator; on success prepend the
code-controlled header to the stripped content, on an exception return the
friendly timeout fallback. -/
def generateTeacherLecture (env : TeacherEnv) (topic context : String)
    (unit_num total_units : Nat) : String :=
  match env.gen ⟨topic, context, unit_num, total_units⟩ with
  | Except.ok content => "Lesson " ++ toString unit_num ++ "\n\n" ++ content.trim
  | Except.error _ => timeoutMessage topic unit_num total_units

/-- The on-disk lecture cache for one document fingerprint: unit number to
cached text. -/
abbrev LectureCache := Nat → Option String

/-- Writing `lesson_<k>.txt`. -/
def cacheUpdate (c : LectureCache) (k : Nat) (v : String) : LectureCache :=
  fun j => if j = k then some v else c j

/-- `_teach_unit`: return the cached lecture on a cache hit; on a miss,
retrieve context, generate (or produce the no-content message), write the
result to the cache, and return it. Returns the lecture and the cache
after the call. -/
def teachUnit (env : TeacherEnv) (cache : LectureCache) (u : TeachUnit)
    (unit_num total_units : Nat) : String × LectureCache :=
  match cache unit_num with
  | some cached => (cached, cache)
  | none =>
      let context := env.retrieve u.title
      let lecture :=
        if context = "" then noContentMessage u.title unit_num total_units
        else generateTeacherLecture env u.title context unit_num total_units
      (lecture, cacheUpdate cache unit_num lecture)

/-- The body of `teach_entire_curriculum_with_highlighting`, sequentialized
at its synchronization points: iteration `i` delivers either the result the
background thread produced for it (`bg = some lecture`) or, when there is
no background result — first unit, or a background error — calls
`_teach_unit` synchronously. At the end of the iteration the background
thread for unit `i+1` runs `_teach_unit` (or fails, per `bgErr`, leaving
the cache as it was and forcing synchronous regeneration next iteration). -/
def teachLoopAux (env : TeacherEnv) (total_units : Nat) (bgErr : Nat → Bool) :
    List TeachUnit → Nat → Option String → LectureCache → List String × LectureCache
  | [], _, _, cache => ([], cache)
  | u :: rest, i, bg, cache =>
      let step :=
        match bg with
        | none => teachUnit env cache u i total_units
        | some l => (l, cache)
      match rest with
      | [] => ([step.1], step.2)
      | v :: rest2 =>
          if bgErr (i + 1) then
            let res := teachLoopAux env total_units bgErr (v :: rest2) (i + 1) none step.2
            (step.1 :: res.1, res.2)
          else
            let nl := teachUnit env step.2 v (i + 1) total_units
            let res := teachLoopAux env total_units bgErr (v :: rest2) (i + 1) (some nl.1) nl.2
            (step.1 :: res.1, res.2)

/-- The whole autonomous teaching session over a curriculum, starting from
a given cache state: the list of delivered lectures, one per unit, and the
final cache. -/
def teachCurriculum (env : TeacherEnv) (curriculum : List TeachUnit)
    (bgErr : Nat → Bool) (cache : LectureCache) : List String × LectureCache :=
  teachLoopAux env curriculum.length bgErr curriculum 1 none cache

/-! Helper lemmas about `observe`. -/

theorem observe_accepted_fields (s : StudentState) (obs : FrameObservation) (now : Nat)
    (h : CONFIDENCE_THRESHOLD ≤ obs.confidence) :
    (observe s obs now).history =
      (if HISTORY_LENGTH < (s.history ++ [obs.is_attentive]).length then
        (s.history ++ [obs.is_attentive]).tail else s.history ++ [obs.is_attentive]) ∧
    (observe s obs now).confidence_scores =
      (if HISTORY_LENGTH < (s.history ++ [obs.is_attentive]).length then
        (s.confidence_scores ++ [obs.confidence]).tail else s.confidence_scores ++ [obs.confidence]) ∧
    (observe s obs now).current_state =
      (if HISTORY_LENGTH ≤ (observe s obs now).history.length then
        decide (CONSECUTIVE_FRAMES_REQUIRED ≤ countTrue (observe s obs now).history)
       else obs.is_attentive) ∧
    (observe s obs now).total_frames = s.total_frames + 1 ∧
    (observe s obs now).attentive_frames =
      s.attentive_frames + (if (observe s obs now).current_state then 1 else 0) ∧
    (observe s obs now).last_seen = now := by
  simp only [observe, h, if_true]
  simp

theorem observe_rejected_fields (s : StudentState) (obs : FrameObservation) (now : Nat)
    (h : ¬ CONFIDENCE_THRESHOLD ≤ obs.confidence) :
    (observe s obs now).history = s.history ∧
    (observe s obs now).confidence_scores = s.confidence_scores ∧
    (observe s obs now).current_state = s.current_state ∧
    (observe s obs now).distraction_reasons = s.distraction_reasons ∧
    (observe s obs now).total_frames = s.total_frames + 1 ∧
    (observe s obs now).attentive_frames =
      s.attentive_frames + (if s.current_state then 1 else 0) ∧
    (observe s obs now).last_seen = now := by
  simp only [observe, h, if_false]
  simp

/-- Claim C1: for every accepted (confidence at or above threshold)
observation, if after appending the history holds at least `HISTORY_LENGTH`
entries then the smoothed state is the majority vote (at least
`CONSECUTIVE_FRAMES_REQUIRED` true frames in the window); with fewer
entries it mirrors the raw attentive boolean of this observation. In
particular a full window `[true, false, true]` yields `true` and
`[false, false, true]` yields `false`. -/
theorem observe_majority_smoothing (s : StudentState) (obs : FrameObservation) (now : Nat)
    (hconf : CONFIDENCE_THRESHOLD ≤ obs.confidence) :
    (HISTORY_LENGTH ≤ (observe s obs now).history.length →
      (observe s obs now).current_state =
        decide (CONSECUTIVE_FRAMES_REQUIRED ≤ countTrue (observe s obs now).history)) ∧
    ((observe s obs now).history.length < HISTORY_LENGTH →
      (observe s obs now).current_state = obs.is_attentive) ∧
    ((observe s obs now).history = [true, false, true] →
      (observe s obs now).current_state = true) ∧
    ((observe s obs now).history = [false, false, true] →
      (observe s obs now).current_state = false) := by
  obtain ⟨hh, hc, hcur, _⟩ := observe_accepted_fields s obs now hconf
  refine ⟨?_, ?_, ?_, ?_⟩
  · intro hlen
    rw [hcur, if_pos hlen]
  · intro hlen
    rw [hcur, if_neg (not_le.mpr hlen)]
  · intro hhist
    rw [hcur, hhist,
      if_pos (by decide : HISTORY_LENGTH ≤ ([true, false, true] : List Bool).length)]
    decide
  · intro hhist
    rw [hcur, hhist,
      if_pos (by decide : HISTORY_LENGTH ≤ ([false, false, true] : List Bool).length)]
    decide

/-- Witness for C1 at a concrete input: a student whose window holds
`[true, false]` receives an accepted attentive frame with confidence 1,
filling the window to `[true, false, true]`. -/
theorem observe_majority_smoothing_witness :
    CONFIDENCE_THRESHOLD ≤ (FrameObservation.mk true 1 none).confidence ∧
    ((HISTORY_LENGTH ≤ (observe ⟨5, 3, [true, false], [1, 1], [], false, 0⟩
        ⟨true, 1, none⟩ 9).history.length →
      (observe ⟨5, 3, [true, false], [1, 1], [], false, 0⟩ ⟨true, 1, none⟩ 9).current_state =
        decide (CONSECUTIVE_FRAMES_REQUIRED ≤
          countTrue (observe ⟨5, 3, [true, false], [1, 1], [], false, 0⟩
            ⟨true, 1, none⟩ 9).history)) ∧
    ((observe ⟨5, 3, [true, false], [1, 1], [], false, 0⟩
        ⟨true, 1, none⟩ 9).history.length < HISTORY_LENGTH →
      (observe ⟨5, 3, [true, false], [1, 1], [], false, 0⟩ ⟨true, 1, none⟩ 9).current_state =
        (FrameObservation.mk true 1 none).is_attentive) ∧
    ((observe ⟨5, 3, [true, false], [1, 1], [], false, 0⟩ ⟨true, 1, none⟩ 9).history =
        [true, false, true] →
      (observe ⟨5, 3, [true, false], [1, 1], [], false, 0⟩ ⟨true, 1, none⟩ 9).current_state = true) ∧
    ((observe ⟨5, 3, [true, false], [1, 1], [], false, 0⟩ ⟨true, 1, none⟩ 9).history =
        [false, false, true] →
      (observe ⟨5, 3, [true, false], [1, 1], [], false, 0⟩ ⟨true, 1, none⟩ 9).current_state =
        false)) :=
  ⟨by norm_num [CONFIDENCE_THRESHOLD],
   observe_majority_smoothing ⟨5, 3, [true, false], [1, 1], [], false, 0⟩ ⟨true, 1, none⟩ 9
     (by norm_num [CONFIDENCE_THRESHOLD])⟩

/-- Claim C2: a low-confidence observation leaves the window, the
confidence scores, the smoothed state and the distraction tally untouched;
`total_frames` still increments by exactly 1, `attentive_frames` increments
by 1 exactly when the previous smoothed state was true, and the last-seen
timestamp is updated. -/
theorem observe_low_confidence_effect (s : StudentState) (obs : FrameObservation) (now : Nat)
    (h : obs.confidence < CONFIDENCE_THRESHOLD) :
    (observe s obs now).history = s.history ∧
    (observe s obs now).confidence_scores = s.confidence_scores ∧
    (observe s obs now).current_state = s.current_state ∧
    (observe s obs now).distraction_reasons = s.distraction_reasons ∧
    (observe s obs now).total_frames = s.total_frames + 1 ∧
    (observe s obs now).attentive_frames =
      s.attentive_frames + (if s.current_state then 1 else 0) ∧
    (observe s obs now).last_seen = now :=
  observe_rejected_fields s obs now (not_le.mpr h)

/-- Witness for C2 at a concrete input: a frame with confidence 0.5 (below
the 0.6 threshold) hits a student whose smoothed state is true. -/
theorem observe_low_confidence_effect_witness :
    (FrameObservation.mk false (1 / 2) (some ("looking_away"))).confidence <
      CONFIDENCE_THRESHOLD ∧
    ((observe ⟨4, 2, [true, true], [1, 1], [], true, 3⟩
        ⟨false, 1 / 2, some ("looking_away")⟩ 8).history = [true, true] ∧
     (observe ⟨4, 2, [true, true], [1, 1], [], true, 3⟩
        ⟨false, 1 / 2, some ("looking_away")⟩ 8).confidence_scores = [1, 1] ∧
     (observe ⟨4, 2, [true, true], [1, 1], [], true, 3⟩
        ⟨false, 1 / 2, some ("looking_away")⟩ 8).current_state = true ∧
     (observe ⟨4, 2, [true, true], [1, 1], [], true, 3⟩
        ⟨false, 1 / 2, some ("looking_away")⟩ 8).distraction_reasons = [] ∧
     (observe ⟨4, 2, [true, true], [1, 1], [], true, 3⟩
        ⟨false, 1 / 2, some ("looking_away")⟩ 8).total_frames = 4 + 1 ∧
     (observe ⟨4, 2, [true, true], [1, 1], [], true, 3⟩
        ⟨false, 1 / 2, some ("looking_away")⟩ 8).attentive_frames =
          2 + (if true then 1 else 0) ∧
     (observe ⟨4, 2, [true, true], [1, 1], [], true, 3⟩
        ⟨false, 1 / 2, some ("looking_away")⟩ 8).last_seen = 8) :=
  ⟨by norm_num [CONFIDENCE_THRESHOLD],
   observe_low_confidence_effect ⟨4, 2, [true, true], [1, 1], [], true, 3⟩
     ⟨false, 1 / 2, some ("looking_away")⟩ 8 (by norm_num [CONFIDENCE_THRESHOLD])⟩

/-! Lookup lemmas for the session map. -/

theorem lookup_append_of_none (m l : List (String × StudentState)) (b : String)
    (h : lookupStudent m b = none) : lookupStudent (m ++ l) b = lookupStudent l b := by
  induction m with
  | nil => rfl
  | cons p rest ih =>
      obtain ⟨k, v⟩ := p
      by_cases hk : k = b
      · simp [lookupStudent, hk] at h
      · simp only [lookupStudent, hk, if_neg hk, List.cons_append] at h ⊢
        exact ih h

theorem lookup_append_single_ne (m : List (String × StudentState)) (a b : String)
    (v : StudentState) (hne : a ≠ b) :
    lookupStudent (m ++ [(a, v)]) b = lookupStudent m b := by
  induction m with
  | nil => simp [lookupStudent, hne]
  | cons p rest ih =>
      obtain ⟨k, w⟩ := p
      by_cases hk : k = b
      · simp [lookupStudent, hk]
      · simp [lookupStudent, hk, ih]

theorem lookup_updateAt_ne (m : List (String × StudentState)) (a b : String)
    (f : StudentState → StudentState) (hne : a ≠ b) :
    lookupStudent (updateAt m a f) b = lookupStudent m b := by
  induction m with
  | nil => rfl
  | cons p rest ih =>
      obtain ⟨k, w⟩ := p
      by_cases hka : k = a
      · subst hka
        have hkb : k ≠ b := hne
        simp only [updateAt, if_pos rfl, lookupStudent, if_neg hkb]
      · simp only [updateAt, if_neg hka, lookupStudent]
        by_cases hkb : k = b
        · simp [hkb]
        · simp only [if_neg hkb]
          exact ih

theorem lookup_updateAt_eq (m : List (String × StudentState)) (a : String)
    (f : StudentState → StudentState) :
    lookupStudent (updateAt m a f) a = (lookupStudent m a).map f := by
  induction m with
  | nil => rfl
  | cons p rest ih =>
      obtain ⟨k, w⟩ := p
      by_cases hka : k = a
      · subst hka
        simp only [updateAt, if_pos rfl, lookupStudent]
        simp
      · simp only [updateAt, if_neg hka, lookupStudent, if_neg hka]
        exact ih

theorem lookup_getOrInit_self (m : List (String × StudentState)) (a : String) (now : Nat) :
    ∃ s0, lookupStudent (getOrInit m a now) a = some s0 ∧
      (lookupStudent m a = some s0 ∨ s0 = initState now) := by
  unfold getOrInit
  cases hm : lookupStudent m a with
  | some s0 => exact ⟨s0, by simp [hm], Or.inl rfl⟩
  | none =>
      refine ⟨initState now, ?_, Or.inr rfl⟩
      rw [if_neg (by simp [hm])]
      rw [lookup_append_of_none m _ a hm]
      simp [lookupStudent]

/-! The per-student invariant and its preservation. -/

/-- The spec invariant on one student state: the two rolling windows move
in lockstep and stay within `HISTORY_LENGTH`, and the attentive counter
never exceeds the total counter. -/
def AttentionInv (s : StudentState) : Prop :=
  s.history.length = s.confidence_scores.length ∧
  s.history.length ≤ HISTORY_LENGTH ∧
  s.attentive_frames ≤ s.total_frames

theorem attentionInv_initState (now : Nat) : AttentionInv (initState now) := by
  simp [AttentionInv, initState, HISTORY_LENGTH]

theorem attentionInv_observe (s : StudentState) (obs : FrameObservation) (now : Nat)
    (h : AttentionInv s) : AttentionInv (observe s obs now) := by
  obtain ⟨hlen, hle, hcnt⟩ := h
  by_cases hconf : CONFIDENCE_THRESHOLD ≤ obs.confidence
  · obtain ⟨hh, hc, _, ht, ha, _⟩ := observe_accepted_fields s obs now hconf
    refine ⟨?_, ?_, ?_⟩
    · rw [hh, hc]
      by_cases hpop : HISTORY_LENGTH < (s.history ++ [obs.is_attentive]).length
      · rw [if_pos hpop, if_pos hpop]
        simp [hlen]
      · rw [if_neg hpop, if_neg hpop]
        simp [hlen]
    · rw [hh]
      by_cases hpop : HISTORY_LENGTH < (s.history ++ [obs.is_attentive]).length
      · rw [if_pos hpop]
        simp only [List.length_tail, List.length_append, List.length_cons,
          List.length_nil]
        omega
      · rw [if_neg hpop]
        simp only [List.length_append, List.length_cons, List.length_nil] at hpop ⊢
        omega
    · rw [ht, ha]
      cases hcur : (observe s obs now).current_state <;> simp <;> omega
  · obtain ⟨hh, hc, _, _, ht, ha, _⟩ := observe_rejected_fields s obs now hconf
    refine ⟨by rw [hh, hc]; exact hlen, by rw [hh]; exact hle, ?_⟩
    rw [ht, ha]
    cases s.current_state <;> simp <;> omega

/-- The invariant over the whole session map. -/
def SessionInv (m : List (String × StudentState)) : Prop :=
  ∀ name s, lookupStudent m name = some s → AttentionInv s

theorem sessionInv_observeSession (m : List (String × StudentState)) (name : String)
    (obs : FrameObservation) (now : Nat) (h : SessionInv m) :
    SessionInv (observeSession m name obs now) := by
  intro n s hlook
  unfold observeSession at hlook
  by_cases hn : name = n
  · subst hn
    rw [lookup_updateAt_eq] at hlook
    obtain ⟨s0, hs0, hcase⟩ := lookup_getOrInit_self m name now
    rw [hs0] at hlook
    have hlook2 : some (observe s0 obs now) = some s := hlook
    injection hlook2 with he
    have hinv0 : AttentionInv s0 := by
      rcases hcase with hc | hc
      · exact h name s0 hc
      · rw [hc]; exact attentionInv_initState now
    rw [← he]
    exact attentionInv_observe s0 obs now hinv0
  · rw [lookup_updateAt_ne _ _ _ _ hn] at hlook
    unfold getOrInit at hlook
    by_cases hm : (lookupStudent m name).isSome
    · rw [if_pos hm] at hlook
      exact h n s hlook
    · rw [if_neg hm, lookup_append_single_ne _ _ _ _ hn] at hlook
      exact h n s hlook

theorem sessionInv_runSession (m : List (String × StudentState))
    (l : List (String × FrameObservation × Nat)) (h : SessionInv m) :
    SessionInv (runSession m l) := by
  induction l generalizing m with
  | nil => exact h
  | cons e rest ih =>
      exact ih _ (sessionInv_observeSession m e.1 e.2.1 e.2.2 h)

/-- Claim C3: after any sequence of `analyze_emotion` calls starting from
the empty session map, every tracked student state satisfies
`len(history) = len(confidence_scores) ≤ HISTORY_LENGTH` and
`attentive_frames ≤ total_frames_seen`. -/
theorem session_invariants (l : List (String × FrameObservation × Nat)) (name : String)
    (s : StudentState) (h : lookupStudent (runSession [] l) name = some s) :
    s.history.length = s.confidence_scores.length ∧
    s.history.length ≤ HISTORY_LENGTH ∧
    s.attentive_frames ≤ s.total_frames := by
  have hempty : SessionInv [] := by
    intro n t ht
    simp [lookupStudent] at ht
  exact sessionInv_runSession [] l hempty name s h

/-- Witness for C3: a two-call session for student A (one accepted
attentive frame, one accepted distracted frame). -/
theorem session_invariants_witness :
    lookupStudent (runSession []
        [("A", ⟨true, 1, none⟩, 0), ("A", ⟨false, 1, none⟩, 1)]) "A" =
      some ⟨2, 1, [true, false], [1, 1], [], false, 1⟩ ∧
    (([true, false] : List Bool).length = ([(1 : ℚ), 1]).length ∧
     ([true, false] : List Bool).length ≤ HISTORY_LENGTH ∧
     (1 : Nat) ≤ 2) := by
  have heval : lookupStudent (runSession []
      [("A", ⟨true, 1, none⟩, 0), ("A", ⟨false, 1, none⟩, 1)]) "A" =
      some ⟨2, 1, [true, false], [1, 1], [], false, 1⟩ := by
    norm_num [runSession, observeSession, getOrInit, updateAt, lookupStudent, observe,
      initState, CONFIDENCE_THRESHOLD, HISTORY_LENGTH, countTrue]
  exact ⟨heval,
    session_invariants [("A", ⟨true, 1, none⟩, 0), ("A", ⟨false, 1, none⟩, 1)] "A"
      ⟨2, 1, [true, false], [1, 1], [], false, 1⟩ heval⟩

/-- Claim C9: per-student isolation — an `analyze_emotion` call for student
`a` leaves the tracked state of any other student `b` unchanged. -/
theorem observe_isolation (m : List (String × StudentState)) (a b : String)
    (obs : FrameObservation) (now : Nat) (hne : a ≠ b) :
    lookupStudent (observeSession m a obs now) b = lookupStudent m b := by
  unfold observeSession
  rw [lookup_updateAt_ne _ _ _ _ hne]
  unfold getOrInit
  by_cases hm : (lookupStudent m a).isSome
  · rw [if_pos hm]
  · rw [if_neg hm, lookup_append_single_ne _ _ _ _ hne]

/-- Witness for C9: an observation of Alice leaves Bob's entry untouched. -/
theorem observe_isolation_witness :
    "Alice" ≠ "Bob" ∧
    lookupStudent (observeSession [("Bob", initState 0)] "Alice" ⟨true, 1, none⟩ 5) "Bob" =
      lookupStudent [("Bob", initState 0)] "Bob" :=
  ⟨by decide,
   observe_isolation [("Bob", initState 0)] "Alice" "Bob" ⟨true, 1, none⟩ 5 (by decide)⟩

/-! The argmax fold used for the top distraction reason. -/

theorem foldl_argmax_spec (rest : List (String × Nat)) (p : String × Nat) :
    (rest.foldl (fun best q => if best.2 < q.2 then q else best) p = p ∨
      rest.foldl (fun best q => if best.2 < q.2 then q else best) p ∈ rest) ∧
    p.2 ≤ (rest.foldl (fun best q => if best.2 < q.2 then q else best) p).2 ∧
    ∀ q ∈ rest, q.2 ≤ (rest.foldl (fun best q => if best.2 < q.2 then q else best) p).2 := by
  induction rest generalizing p with
  | nil => simp
  | cons q rest ih =>
      simp only [List.foldl_cons]
      by_cases hq : p.2 < q.2
      · rw [if_pos hq]
        obtain ⟨hmem, hle, hall⟩ := ih q
        refine ⟨?_, le_trans (le_of_lt hq) hle, ?_⟩
        · rcases hmem with h | h
          · exact Or.inr (by rw [h]; exact List.mem_cons_self q rest)
          · exact Or.inr (List.mem_cons_of_mem q h)
        · intro x hx
          rcases List.mem_cons.mp hx with h | h
          · rw [h]; exact hle
          · exact hall x h
      · rw [if_neg hq]
        obtain ⟨hmem, hle, hall⟩ := ih p
        refine ⟨?_, hle, ?_⟩
        · rcases hmem with h | h
          · exact Or.inl h
          · exact Or.inr (List.mem_cons_of_mem q h)
        · intro x hx
          rcases List.mem_cons.mp hx with h | h
          · rw [h]; exact le_trans (le_of_not_lt hq) hle
          · exact hall x h

/-- Claim C4: the end-of-session summary row has
`attentive_percentage = round(attentive / total * 100)` with 0 (not a
division error) when `total = 0`; the average confidence is the mean of the
recorded scores (0 when none); the top distraction reason is an argmax of
the tally, `"None"` when the tally is empty; and `total=10, attentive=7`
gives exactly 70. -/
theorem end_session_summary (name : String) (s : StudentState) :
    (s.total_frames = 0 → (summaryEntry name s).attentive_percentage = 0) ∧
    (0 < s.total_frames →
      (summaryEntry name s).attentive_percentage =
        pyRound ((s.attentive_frames : ℚ) / s.total_frames * 100)) ∧
    (s.total_frames = 10 → s.attentive_frames = 7 →
      (summaryEntry name s).attentive_percentage = 70) ∧
    (s.confidence_scores = [] → avgConfidence s = 0) ∧
    (s.confidence_scores ≠ [] →
      avgConfidence s * s.confidence_scores.length = s.confidence_scores.sum) ∧
    (s.distraction_reasons = [] → (summaryEntry name s).top_distraction = "None") ∧
    (s.distraction_reasons ≠ [] →
      ∃ c, ((summaryEntry name s).top_distraction, c) ∈ s.distraction_reasons ∧
        ∀ p ∈ s.distraction_reasons, p.2 ≤ c) := by
  refine ⟨?_, ?_, ?_, ?_, ?_, ?_, ?_⟩
  · intro h0
    simp [summaryEntry, h0]
  · intro hpos
    simp [summaryEntry, hpos]
  · intro h10 h7
    simp only [summaryEntry, h10, h7]
    norm_num [pyRound]
  · intro hnil
    simp [avgConfidence, hnil]
  · intro hne
    have hlen : (s.confidence_scores.length : ℚ) ≠ 0 := by
      have hn : s.confidence_scores.length ≠ 0 := by
        intro h0
        exact hne (List.length_eq_zero.mp h0)
      exact_mod_cast hn
    simp only [avgConfidence, if_pos hne]
    rw [div_mul_cancel₀ _ hlen]
  · intro hnil
    simp [summaryEntry, topDistraction, hnil]
  · intro hne
    simp only [summaryEntry]
    cases hd : s.distraction_reasons with
    | nil => exact absurd hd hne
    | cons p rest =>
        obtain ⟨hmem, hle, hall⟩ := foldl_argmax_spec rest p
        refine ⟨(rest.foldl (fun best q => if best.2 < q.2 then q else best) p).2, ?_, ?_⟩
        · rw [topDistraction, Prod.mk.eta]
          rcases hmem with h | h
          · rw [h]
            exact List.mem_cons_self p rest
          · exact List.mem_cons_of_mem p h
        · intro x hx
          rcases List.mem_cons.mp hx with h | h
          · rw [h]; exact hle
          · exact hall x h

/-- Witness for C4 at a concrete student: 10 frames, 7 attentive, three
recorded confidences, two distraction reasons. -/
theorem end_session_summary_witness :
    ((10 : Nat) = 0 →
      (summaryEntry ("A") ⟨10, 7, [true], [1, 4/5, 3/5], [("phone", 2), ("talking", 5)], true,
        42⟩).attentive_percentage = 0) ∧
    (0 < (10 : Nat) →
      (summaryEntry ("A") ⟨10, 7, [true], [1, 4/5, 3/5], [("phone", 2), ("talking", 5)], true,
        42⟩).attentive_percentage = pyRound (((7 : Nat) : ℚ) / (10 : Nat) * 100)) ∧
    ((10 : Nat) = 10 → (7 : Nat) = 7 →
      (summaryEntry ("A") ⟨10, 7, [true], [1, 4/5, 3/5], [("phone", 2), ("talking", 5)], true,
        42⟩).attentive_percentage = 70) ∧
    (([(1 : ℚ), 4/5, 3/5]) = [] →
      avgConfidence ⟨10, 7, [true], [1, 4/5, 3/5], [("phone", 2), ("talking", 5)], true, 42⟩ = 0) ∧
    (([(1 : ℚ), 4/5, 3/5]) ≠ [] →
      avgConfidence ⟨10, 7, [true], [1, 4/5, 3/5], [("phone", 2), ("talking", 5)], true, 42⟩ *
        ([(1 : ℚ), 4/5, 3/5].length) = [(1 : ℚ), 4/5, 3/5].sum) ∧
    (([("phone", 2), ("talking", 5)] : List (String × Nat)) = [] →
      (summaryEntry ("A") ⟨10, 7, [true], [1, 4/5, 3/5], [("phone", 2), ("talking", 5)], true,
        42⟩).top_distraction = "None") ∧
    (([("phone", 2), ("talking", 5)] : List (String × Nat)) ≠ [] →
      ∃ c, ((summaryEntry ("A") ⟨10, 7, [true], [1, 4/5, 3/5], [("phone", 2), ("talking", 5)], true,
          42⟩).top_distraction, c) ∈ ([("phone", 2), ("talking", 5)] : List (String × Nat)) ∧
        ∀ p ∈ ([("phone", 2), ("talking", 5)] : List (String × Nat)), p.2 ≤ c) :=
  end_session_summary ("A") ⟨10, 7, [true], [1, 4/5, 3/5], [("phone", 2), ("talking", 5)], true, 42⟩

/-- Counterexample to C7 as stated: with Alice's in-flight state present,
`start_emotion_tracking` resets the collection to empty — the prior state
is silently clobbered, and no error or force flag exists in the code. -/
theorem start_session_clobbers_counterexample :
    startSession [("Alice", initState 0)] = [] ∧
    ([("Alice", initState 0)] : List (String × StudentState)) ≠ [] := by
  constructor
  · rfl
  · intro h
    exact absurd h (by simp)

/-- Claim C7 as amended: `start_emotion_tracking` unconditionally
reinitializes the student-state collection to empty (`lecture_sessions = {}`),
silently discarding whatever in-flight session state existed; no student
remains tracked afterwards. -/
theorem start_session_clears (m : List (String × StudentState)) :
    startSession m = [] ∧ ∀ name, lookupStudent (startSession m) name = none :=
  ⟨rfl, fun _ => rfl⟩

/-- Counterexample to C8 as stated: after `end_emotion_tracking` returns
the summary, the collection still contains the session's entry for Alice
(the handler deliberately keeps `lecture_sessions` so the summary can be
fetched again). -/
theorem end_session_retains_counterexample :
    (endSession [("Alice", initState 0)]).2 = [("Alice", initState 0)] ∧
    lookupStudent (endSession [("Alice", initState 0)]).2 ("Alice") = some (initState 0) := by
  constructor
  · rfl
  · simp [endSession, lookupStudent]

/-- Claim C8 as amended: a student state is created lazily on the first
observation of its label; `end_emotion_tracking` reads the collection but
leaves it unchanged (the summary can be re-fetched); the states are
discarded only when the next `start_emotion_tracking` clears the
collection. -/
theorem student_state_lifecycle (m : List (String × StudentState)) (name : String)
    (obs : FrameObservation) (now : Nat) :
    (lookupStudent m name = none →
      lookupStudent (observeSession m name obs now) name =
        some (observe (initState now) obs now)) ∧
    (endSession m).2 = m ∧
    startSession m = [] := by
  refine ⟨?_, rfl, rfl⟩
  intro hnone
  unfold observeSession
  rw [lookup_updateAt_eq]
  obtain ⟨s0, hs0, hcase⟩ := lookup_getOrInit_self m name now
  rw [hs0]
  rcases hcase with hc | hc
  · rw [hnone] at hc
    exact absurd hc (by simp)
  · rw [hc]
    rfl

/-- Witness for the amended C8 at a concrete input: Alice is absent before
her first observation, present with the freshly evolved state after it;
ending keeps the map, starting clears it. -/
theorem student_state_lifecycle_witness :
    lookupStudent ([] : List (String × StudentState)) "Alice" = none ∧
    ((lookupStudent ([] : List (String × StudentState)) "Alice" = none →
      lookupStudent (observeSession [] "Alice" ⟨true, 1, none⟩ 4) "Alice" =
        some (observe (initState 4) ⟨true, 1, none⟩ 4)) ∧
    (endSession ([] : List (String × StudentState))).2 = [] ∧
    startSession ([] : List (String × StudentState)) = []) :=
  ⟨rfl, student_state_lifecycle [] "Alice" ⟨true, 1, none⟩ 4⟩

/-- Claim C5: the lecture cache is write-once-effectively — on a cache hit
`_teach_unit` returns exactly the stored text, does not touch the cache,
and performs no generation (the result is the same under any generator
environment); a repeated call for the same key returns byte-identical
content. -/
theorem teach_unit_cache_hit (env env2 : TeacherEnv) (cache : LectureCache)
    (u : TeachUnit) (unit_num total_units : Nat) (v : String)
    (h : cache unit_num = some v) :
    teachUnit env cache u unit_num total_units = (v, cache) ∧
    teachUnit env2 (teachUnit env cache u unit_num total_units).2 u unit_num total_units =
      (v, cache) := by
  have h1 : teachUnit env cache u unit_num total_units = (v, cache) := by
    unfold teachUnit
    rw [h]
  refine ⟨h1, ?_⟩
  have h2 : (teachUnit env cache u unit_num total_units).2 = cache := by rw [h1]
  rw [h2]
  unfold teachUnit
  rw [h]

/-- Witness for C5: a cache holding "stored lecture" at unit 1 is hit by
two different environments and returns the stored text both times. -/
theorem teach_unit_cache_hit_witness :
    (fun k => if k = 1 then some ("stored lecture") else none : LectureCache) 1 =
      some ("stored lecture") ∧
    (teachUnit ⟨fun _ => "ctx", fun _ => Except.ok ("generated")⟩
        (fun k => if k = 1 then some ("stored lecture") else none) ⟨"Topic"⟩ 1 3 =
      ("stored lecture", fun k => if k = 1 then some ("stored lecture") else none) ∧
    teachUnit ⟨fun _ => "", fun _ => Except.error ("down")⟩
        (teachUnit ⟨fun _ => "ctx", fun _ => Except.ok ("generated")⟩
          (fun k => if k = 1 then some ("stored lecture") else none) ⟨"Topic"⟩ 1 3).2
        ⟨"Topic"⟩ 1 3 =
      ("stored lecture", fun k => if k = 1 then some ("stored lecture") else none)) :=
  ⟨rfl,
   teach_unit_cache_hit ⟨fun _ => "ctx", fun _ => Except.ok ("generated")⟩
     ⟨fun _ => "", fun _ => Except.error ("down")⟩
     (fun k => if k = 1 then some ("stored lecture") else none) ⟨"Topic"⟩ 1 3
     "stored lecture" rfl⟩

/-- Claim C10 (implicit): when generation fails on a cache miss, the
fallback timeout message itself is written to that unit's cache entry, so
every later `_teach_unit` call for the same key — under any environment,
including later sessions against the persisted cache — returns the
fallback apology text as a cache hit without re-attempting generation. -/
theorem generation_failure_cached (env : TeacherEnv) (cache : LectureCache)
    (u : TeachUnit) (unit_num total_units : Nat) (e : String)
    (hmiss : cache unit_num = none)
    (hctx : env.retrieve u.title ≠ "")
    (hfail : env.gen ⟨u.title, env.retrieve u.title, unit_num, total_units⟩ =
      Except.error e) :
    (teachUnit env cache u unit_num total_units).1 =
      timeoutMessage u.title unit_num total_units ∧
    (teachUnit env cache u unit_num total_units).2 unit_num =
      some (timeoutMessage u.title unit_num total_units) ∧
    ∀ env2, teachUnit env2 (teachUnit env cache u unit_num total_units).2 u
        unit_num total_units =
      (timeoutMessage u.title unit_num total_units,
        (teachUnit env cache u unit_num total_units).2) := by
  have hstep : teachUnit env cache u unit_num total_units =
      (timeoutMessage u.title unit_num total_units,
        cacheUpdate cache unit_num (timeoutMessage u.title unit_num total_units)) := by
    unfold teachUnit
    rw [hmiss]
    simp only [if_neg hctx, generateTeacherLecture, hfail]
  refine ⟨by rw [hstep], ?_, ?_⟩
  · rw [hstep]
    simp [cacheUpdate]
  · intro env2
    rw [hstep]
    unfold teachUnit
    simp [cacheUpdate]

/-- Witness for C10: empty cache, non-empty context, failing generator. -/
theorem generation_failure_cached_witness :
    ((fun _ => none : LectureCache) 2 = none ∧
     (TeacherEnv.mk (fun _ => "some context") (fun _ => Except.error ("timeout"))).retrieve
        ("Stacks") ≠ "" ∧
     (TeacherEnv.mk (fun _ => "some context") (fun _ => Except.error ("timeout"))).gen
        ⟨"Stacks", "some context", 2, 5⟩ = Except.error ("timeout")) ∧
    ((teachUnit ⟨fun _ => "some context", fun _ => Except.error ("timeout")⟩
        (fun _ => none) ⟨"Stacks"⟩ 2 5).1 = timeoutMessage ("Stacks") 2 5 ∧
     (teachUnit ⟨fun _ => "some context", fun _ => Except.error ("timeout")⟩
        (fun _ => none) ⟨"Stacks"⟩ 2 5).2 2 = some (timeoutMessage ("Stacks") 2 5) ∧
     ∀ env2, teachUnit env2
        (teachUnit ⟨fun _ => "some context", fun _ => Except.error ("timeout")⟩
          (fun _ => none) ⟨"Stacks"⟩ 2 5).2 ⟨"Stacks"⟩ 2 5 =
       (timeoutMessage ("Stacks") 2 5,
        (teachUnit ⟨fun _ => "some context", fun _ => Except.error ("timeout")⟩
          (fun _ => none) ⟨"Stacks"⟩ 2 5).2)) :=
  ⟨⟨rfl, by simp, rfl⟩,
   generation_failure_cached ⟨fun _ => "some context", fun _ => Except.error ("timeout")⟩
     (fun _ => none) ⟨"Stacks"⟩ 2 5 ("timeout") rfl (by simp) rfl⟩

/-- Claim C6: if the external generator raises on unit 2 of a 3-unit
curriculum, the session does not abort — units 1 and 3 are still delivered
with their generated lectures and unit 2 is replaced by the fallback
message; and when the background generation step for unit 2 errors instead,
delivery reaches unit 2 and regenerates it synchronously, so all three
units are delivered with generated content. -/
theorem teaching_failure_isolation (retrieve : String → String)
    (gen gen2 : GenArgs → Except String String) (content : GenArgs → String)
    (u1 u2 u3 : TeachUnit) (e : String)
    (hr1 : retrieve u1.title ≠ "")
    (hr2 : retrieve u2.title ≠ "")
    (hr3 : retrieve u3.title ≠ "")
    (hg1 : gen ⟨u1.title, retrieve u1.title, 1, 3⟩ =
      Except.ok (content ⟨u1.title, retrieve u1.title, 1, 3⟩))
    (hg2 : gen ⟨u2.title, retrieve u2.title, 2, 3⟩ = Except.error e)
    (hg3 : gen ⟨u3.title, retrieve u3.title, 3, 3⟩ =
      Except.ok (content ⟨u3.title, retrieve u3.title, 3, 3⟩))
    (hh1 : gen2 ⟨u1.title, retrieve u1.title, 1, 3⟩ =
      Except.ok (content ⟨u1.title, retrieve u1.title, 1, 3⟩))
    (hh2 : gen2 ⟨u2.title, retrieve u2.title, 2, 3⟩ =
      Except.ok (content ⟨u2.title, retrieve u2.title, 2, 3⟩))
    (hh3 : gen2 ⟨u3.title, retrieve u3.title, 3, 3⟩ =
      Except.ok (content ⟨u3.title, retrieve u3.title, 3, 3⟩)) :
    (teachCurriculum ⟨retrieve, gen⟩ [u1, u2, u3] (fun _ => false) (fun _ => none)).1 =
      ["Lesson " ++ toString 1 ++ "\n\n" ++ (content ⟨u1.title, retrieve u1.title, 1, 3⟩).trim,
       timeoutMessage u2.title 2 3,
       "Lesson " ++ toString 3 ++ "\n\n" ++ (content ⟨u3.title, retrieve u3.title, 3, 3⟩).trim] ∧
    (teachCurriculum ⟨retrieve, gen2⟩ [u1, u2, u3] (fun i => decide (i = 2))
        (fun _ => none)).1 =
      ["Lesson " ++ toString 1 ++ "\n\n" ++ (content ⟨u1.title, retrieve u1.title, 1, 3⟩).trim,
       "Lesson " ++ toString 2 ++ "\n\n" ++ (content ⟨u2.title, retrieve u2.title, 2, 3⟩).trim,
       "Lesson " ++ toString 3 ++ "\n\n" ++ (content ⟨u3.title, retrieve u3.title, 3, 3⟩).trim] := by
  constructor
  · simp [teachCurriculum, teachLoopAux, teachUnit, generateTeacherLecture, cacheUpdate,
      hg1, hg2, hg3, hr1, hr2, hr3]
  · simp [teachCurriculum, teachLoopAux, teachUnit, generateTeacherLecture, cacheUpdate,
      hh1, hh2, hh3, hr1, hr2, hr3]

/-- Witness for C6 at a concrete curriculum A, B, C: a generator that
raises exactly on unit 2, and a clean generator with a background error
flagged on unit 2. -/
theorem teaching_failure_isolation_witness :
    (((fun _ => "ctx") : String → String) ("A") ≠ "" ∧
     ((fun _ => "ctx") : String → String) ("B") ≠ "" ∧
     ((fun _ => "ctx") : String → String) ("C") ≠ "" ∧
     (fun a : GenArgs => if a.unit_num = 2 then Except.error ("boom") else Except.ok a.topic)
        ⟨"A", "ctx", 1, 3⟩ = Except.ok ("A") ∧
     (fun a : GenArgs => if a.unit_num = 2 then Except.error ("boom") else Except.ok a.topic)
        ⟨"B", "ctx", 2, 3⟩ = Except.error ("boom") ∧
     (fun a : GenArgs => if a.unit_num = 2 then Except.error ("boom") else Except.ok a.topic)
        ⟨"C", "ctx", 3, 3⟩ = Except.ok ("C") ∧
     (fun a : GenArgs => Except.ok a.topic) ⟨"A", "ctx", 1, 3⟩ =
        (Except.ok ("A") : Except String String) ∧
     (fun a : GenArgs => Except.ok a.topic) ⟨"B", "ctx", 2, 3⟩ =
        (Except.ok ("B") : Except String String) ∧
     (fun a : GenArgs => Except.ok a.topic) ⟨"C", "ctx", 3, 3⟩ =
        (Except.ok ("C") : Except String String)) ∧
    ((teachCurriculum
        ⟨fun _ => "ctx",
         fun a => if a.unit_num = 2 then Except.error ("boom") else Except.ok a.topic⟩
        [⟨"A"⟩, ⟨"B"⟩, ⟨"C"⟩] (fun _ => false) (fun _ => none)).1 =
      ["Lesson " ++ toString 1 ++ "\n\n" ++ ("A" : String).trim,
       timeoutMessage ("B") 2 3,
       "Lesson " ++ toString 3 ++ "\n\n" ++ ("C" : String).trim] ∧
     (teachCurriculum ⟨fun _ => "ctx", fun a => Except.ok a.topic⟩
        [⟨"A"⟩, ⟨"B"⟩, ⟨"C"⟩] (fun i => decide (i = 2)) (fun _ => none)).1 =
      ["Lesson " ++ toString 1 ++ "\n\n" ++ ("A" : String).trim,
       "Lesson " ++ toString 2 ++ "\n\n" ++ ("B" : String).trim,
       "Lesson " ++ toString 3 ++ "\n\n" ++ ("C" : String).trim]) :=
  ⟨⟨by decide, by decide, by decide, rfl, rfl, rfl, rfl, rfl, rfl⟩,
   teaching_failure_isolation (fun _ => "ctx")
     (fun a => if a.unit_num = 2 then Except.error ("boom") else Except.ok a.topic)
     (fun a => Except.ok a.topic) (fun a => a.topic) ⟨"A"⟩ ⟨"B"⟩ ⟨"C"⟩ ("boom")
     (by decide) (by decide) (by decide) rfl rfl rfl rfl rfl rfl⟩
